import Mathlib

/-
  Verification development for the scheduler-tools repository.

  The definitions below are a shallow embedding of the Python sources:
  * `schedtools/schemas.py`   (JobState, JobSpec, Job, match_jobs, Queue, Job.parse)
  * `schedtools/core.py`      (PBSJob, the dict-backed Queue used by the sweep)
  * `schedtools/jobs.py`      (rerun_jobs sweep: rerun loop, mirror/cache persistence)
  * `schedtools/managers.py`  (PBS.rerun_job)
  * `schedtools/sql.py` and `schedtools/tracking.py` (upsert_jobs)
  * `schedtools/shell_handler.py` (ShellHandler.execute)
  * `schedtools/interfaces/rerun.py` (threshold safety correction)

  Conventions: Python `timedelta` values are modelled as rational numbers of
  seconds, `datetime` values as integer timestamps, Python `None` on string
  fields as `Option.none`.  Fallible code returns `Except`.
-/

/-- Helper: sublist search for the substring test. -/
def subListSearch (needle : List Char) : List Char → Bool
  | [] => needle.isEmpty
  | c :: rest => needle.isPrefixOf (c :: rest) || subListSearch needle rest

/-- Helper: substring test, modelling the Python `needle in haystack` operator. -/
def strContains (haystack needle : String) : Bool :=
  subListSearch needle.data haystack.data

/-- Helper: rendering of an `Optional[str]` the way a Python f-string renders it
(`None` becomes the literal string "None"). -/
def pyStr : Option String → String
  | some s => s
  | none => "None"

/-- Helper: Python `s.replace("\n", "")`. -/
def pyRemoveNewlines (s : String) : String :=
  ⟨s.data.filter (fun c => c ≠ '\n')⟩

/-- Helper: split a character list at whitespace characters. -/
def splitWsAux : List Char → List Char → List (List Char)
  | [], acc => [acc.reverse]
  | c :: rest, acc =>
    if c.isWhitespace then acc.reverse :: splitWsAux rest []
    else splitWsAux rest (c :: acc)

/-- Helper: Python `s.split()` with no arguments — split on whitespace runs,
discarding empty fragments. -/
def pySplitWhitespace (s : String) : List String :=
  ((splitWsAux s.data []).filter (fun t => t ≠ [])).map String.mk

/-- Helper: Python `s.strip()` — trim whitespace from both ends. -/
def pyStrip (s : String) : String :=
  ⟨((s.data.dropWhile Char.isWhitespace).reverse.dropWhile
      Char.isWhitespace).reverse⟩

/-- Helper: Python `s.startswith(pre)`. -/
def pyStartsWith (s pre : String) : Bool :=
  pre.data.isPrefixOf s.data

/-- Helper: digit-string to natural number (used by the Python `int(...)`
model). -/
def digitsToNat (cs : List Char) : Option Nat :=
  if cs ≠ [] ∧ cs.all Char.isDigit then
    some (cs.foldl (fun n c => 10 * n + (c.toNat - 48)) 0)
  else none

/-- Helper: Python `int(s)` on a whitespace-free token, `none` where Python
raises ValueError. -/
def pyParseInt (s : String) : Option Int :=
  match s.data with
  | '-' :: rest => (digitsToNat rest).map (fun n => -(n : Int))
  | '+' :: rest => (digitsToNat rest).map (fun n => (n : Int))
  | cs => (digitsToNat cs).map (fun n => (n : Int))

/-- Helper: Python `s.split(":")[-1]` (split never returns an empty list). -/
def lastColonSegment (s : String) : String :=
  (s.splitOn ":").getLastD ""

/- ------------------------------------------------------------------
   schedtools/clusters.py
   ------------------------------------------------------------------ -/

/-- Cluster enum from `clusters.py`. -/
inductive Cluster
  | cx3
  | cx3_phase_2
  | unknown
deriving DecidableEq, Repr

/-- Cluster.from_server (clusters.py). -/
def Cluster.from_server (server : String) : Cluster :=
  if server = "pbs-7" then .cx3_phase_2
  else if server = "pbs1.rcs.ic.ac.uk" then .cx3
  else .unknown

/- ------------------------------------------------------------------
   schedtools/consts.py  (file not present under src/)
   ------------------------------------------------------------------ -/

/-- Modelled from the spec: `schedtools/consts.py` is not under `src/`; the
spec says every submission carries the environment variable `JOB_ID` (the
tracked id), which `Job.parse` reads back from the `Variable_List`. -/
def job_id_key : String := "JOB_ID"

/-- Modelled from the spec: `schedtools/consts.py` is not under `src/`; the
spec names the companion environment variable `EXPERIMENT_PATH`. -/
def experiment_path_key : String := "EXPERIMENT_PATH"

/- ------------------------------------------------------------------
   schedtools/schemas.py
   ------------------------------------------------------------------ -/

/-- JobState enum (schemas.py). -/
inductive JobState
  | exiting | held | queued | running | moving | waiting | suspended
  | unknown | unsubmitted | completed | failed | alert
deriving DecidableEq, Repr

/-- JobState.parse (schemas.py): single-letter scheduler state codes. -/
def JobState.parse (state : String) : JobState :=
  if state = "E" then .exiting
  else if state = "H" then .held
  else if state = "Q" then .queued
  else if state = "R" then .running
  else if state = "T" then .moving
  else if state = "W" then .waiting
  else if state = "S" then .suspended
  else if state = "U" then .unsubmitted
  else .unknown

/-- The `.value` of each JobState member (schemas.py enum values). -/
def JobState.value : JobState → String
  | .exiting => "exiting"
  | .held => "held"
  | .queued => "queued"
  | .running => "running"
  | .moving => "moving"
  | .waiting => "waiting"
  | .suspended => "suspended"
  | .unknown => "unknown"
  | .unsubmitted => "unsubmitted"
  | .completed => "completed"
  | .failed => "failed"
  | .alert => "alert"

/-- ResourceRequest (schemas.py).  `walltime` is a timedelta, modelled in
seconds as a rational. -/
structure ResourceRequest where
  mem_bytes : Int
  ncpus : Int
  ngpus : Int
  node_count : Int
  place : String
  priority : Option Int
  select_statement : String
  walltime : ℚ
deriving DecidableEq, Repr

/-- ResourceUsage (schemas.py). -/
structure ResourceUsage where
  cpu_percent : Int
  cpu_time : ℚ
  mem_bytes : Int
  vmem_bytes : Int
  ncpus : Int
  ngpus : Int
  walltime : ℚ
deriving DecidableEq, Repr

/-- JobSpec dataclass (schemas.py).  The `id` field is declared `str` in the
source but `Job.parse` can populate it with Python `None`, hence
`Option String` here. -/
structure JobSpec where
  id : Option String
  name : String
  experiment_path : Option String
  cluster : Cluster
  state : JobState
  modified_time : Int
  comment : Option String
  queue : Option String
  project : Option String
  jobscript_path : Option String
deriving DecidableEq, Repr

/-- A structured `qstat -fF json` job body, as consumed by `Job.parse`
(schemas.py).  String-to-number parsing of memory/walltime/datetime fields is
done by `ResourceRequest.parse` / `parse_datetime` in the source and is kept
abstract here: the body carries the parsed components, plus the raw
`Variable_List` and `Submit_arguments` entries that `Job.parse` itself
processes. -/
structure QstatBody where
  job_name : String
  job_owner : String
  job_state : Option String
  queue : String
  server : String
  project : String
  checkpoint : String
  error_path_raw : String
  output_path_raw : String
  resource_list : ResourceRequest
  resources_used : Option ResourceUsage
  stime : Option Int
  ctime : Int
  qtime : Int
  mtime : Int
  priority : Int
  comment : Option String
  run_count : Int
  submit_arguments_raw : Option String
  variable_list : List (String × String)
deriving DecidableEq, Repr

/-- Job dataclass (schemas.py), extending JobSpec with scheduler-observed
fields. -/
structure Job extends JobSpec where
  scheduler_id : String
  owner : String
  resource_request : ResourceRequest
  resource_usage : Option ResourceUsage
  server : String
  start_time : Option Int
  creation_time : Int
  queue_time : Int
  checkpoint : String
  submit_arguments : Option (List String)
  error_path : String
  output_path : String
  priority : Int
  run_count : Int
  job_details : QstatBody
deriving DecidableEq, Repr

/-- JobSpec.percent_completion (schemas.py, lines 197-201). -/
def JobSpec.percent_completion (j : JobSpec) : ℚ :=
  if j.state = .completed then 100 else 0

/-- Job.percent_completion (schemas.py, lines 325-337).  The guard on
`resource_usage.walltime` models Python timedelta truthiness (false exactly
when the timedelta is zero). -/
def Job.percent_completion (j : Job) : ℚ :=
  if j.state = .completed then 100
  else if j.state = .failed then 0
  else
    match j.resource_usage with
    | some u =>
        if u.walltime ≠ 0 then
          100 * u.walltime / j.resource_request.walltime
        else 0
    | none => 0

/-- Job.parse (schemas.py, lines 343-393). -/
def Job.parse (scheduler_id : String) (job : QstatBody) : Job :=
  let submit_arguments :=
    job.submit_arguments_raw.map (fun s => pySplitWhitespace (pyRemoveNewlines s))
  let jobscript_path :=
    match submit_arguments with
    | some l => l.getLast?
    | none => none
  let vars := job.variable_list
  let id := vars.lookup job_id_key
  let experiment_path := vars.lookup experiment_path_key
  let cluster := Cluster.from_server job.server
  { id := id
    experiment_path := experiment_path
    cluster := cluster
    scheduler_id := scheduler_id
    name := job.job_name
    owner := job.job_owner
    state := JobState.parse (job.job_state.getD "unknown")
    resource_usage := job.resources_used
    resource_request := job.resource_list
    queue := some job.queue
    server := job.server
    project := some job.project
    start_time := job.stime
    jobscript_path := jobscript_path
    creation_time := job.ctime
    queue_time := job.qtime
    checkpoint := job.checkpoint
    submit_arguments := submit_arguments
    error_path := lastColonSegment job.error_path_raw
    output_path := lastColonSegment job.output_path_raw
    modified_time := job.mtime
    priority := job.priority
    comment := job.comment
    run_count := job.run_count
    job_details := job }

/-- Argument type of `match_jobs` (schemas.py): a string, a JobSpec or a Job
(`Union["JobSpec", "Job", str]`). -/
inductive JobArg
  | ofStr (s : String)
  | ofSpec (j : JobSpec)
  | ofJob (j : Job)
deriving DecidableEq, Repr

/-- The `id` attribute of a match argument, when present (`hasattr(x, "id")`).
Strings expose no `id` attribute. -/
def JobArg.idAttr : JobArg → Option (Option String)
  | .ofStr _ => none
  | .ofSpec j => some j.id
  | .ofJob j => some j.id

/-- The `scheduler_id` attribute of a match argument, when present
(`hasattr(x, "scheduler_id")`).  Only Jobs expose one. -/
def JobArg.schedAttr : JobArg → Option String
  | .ofJob j => some j.scheduler_id
  | _ => none

/-- match_str_job (schemas.py `_match_str_job`, lines 57-63): compare a plain
string against whichever of `id` / `scheduler_id` the record exposes.  Note a
Python comparison of a `str` with `None` is `False`, here `some a == none`. -/
def match_str_job (a : String) : JobArg → Bool
  | .ofStr _ => false
  | .ofSpec j => some a == j.id
  | .ofJob j => (some a == j.id) || (a == j.scheduler_id)

/-- match_jobs (schemas.py, lines 66-82). -/
def match_jobs : JobArg → JobArg → Bool
  | .ofStr a, .ofStr b => a == b
  | .ofStr a, b => match_str_job a b
  | a, .ofStr b => match_str_job b a
  | .ofSpec a, .ofSpec b => a.id == b.id
  | .ofSpec a, .ofJob b => a.id == b.id
  | .ofJob a, .ofSpec b => a.id == b.id
  | .ofJob a, .ofJob b => (a.id == b.id) || (a.scheduler_id == b.scheduler_id)

/-- JobSpec.__eq__ (schemas.py, lines 220-221) delegates to match_jobs. -/
def JobSpec.eqPy (a : JobSpec) (other : JobArg) : Bool :=
  match_jobs (.ofSpec a) other

/-- Queue of Jobs (schemas.py). -/
structure Queue where
  jobs : List Job
deriving DecidableEq, Repr

/-- Body of Queue.add (schemas.py, lines 415-421): replace the first entry
matching the new job, else append. -/
def addJob : List Job → Job → List Job
  | [], job => [job]
  | j :: rest, job =>
    if match_jobs (.ofJob j) (.ofJob job) then job :: rest
    else j :: addJob rest job

/-- Queue.add (schemas.py). -/
def Queue.add (q : Queue) (job : Job) : Queue :=
  ⟨addJob q.jobs job⟩

/-- Queue.merge (schemas.py, lines 423-427): copy, then add every job of the
other queue. -/
def Queue.merge (q other : Queue) : Queue :=
  ⟨other.jobs.foldl addJob q.jobs⟩

/-- Queue.__contains__ (schemas.py, lines 429-433). -/
def Queue.containsArg (q : Queue) (job : JobArg) : Bool :=
  q.jobs.any (fun j => match_jobs (.ofJob j) job)

/-- Queue built from the empty job list, then one `add` per element of `l`
(tracks any finite sequence of `Queue.add` operations). -/
def applyAdds (l : List Job) : Queue :=
  l.foldl Queue.add ⟨[]⟩

/-- Decidable check that no two entries of a job list satisfy the identity
match. -/
def noTwoMatch : List Job → Bool
  | [] => true
  | j :: rest =>
    rest.all (fun k => !(match_jobs (.ofJob j) (.ofJob k))) && noTwoMatch rest

/-- Decidable check that `match_jobs` is transitive on the members of a job
list. -/
def matchTransOn (l : List Job) : Bool :=
  l.all (fun a => l.all (fun b => l.all (fun c =>
    !(match_jobs (.ofJob a) (.ofJob b)) ||
    !(match_jobs (.ofJob b) (.ofJob c)) ||
    match_jobs (.ofJob a) (.ofJob c))))

/- ------------------------------------------------------------------
   schedtools/core.py
   ------------------------------------------------------------------ -/

namespace Core

/-- PBSJob (core.py): a dict-like record of PBS job information.  For the
sweep model only the `id` entry is interpreted; the remaining dict entries are
carried as an opaque association list. -/
structure PBSJob where
  id : String
  payload : List (String × String)
deriving DecidableEq, Repr

/-- Python-dict insertion: replace the value in place when the key exists,
append otherwise (models `d[k] = v`). -/
def dictInsert {V : Type} : List (String × V) → String → V → List (String × V)
  | [], k, v => [(k, v)]
  | (k', v') :: rest, k, v =>
    if k' = k then (k', v) :: rest else (k', v') :: dictInsert rest k v

/-- Queue (core.py): backed by a Python dict keyed on `job.id`. -/
structure Queue where
  jobs : List (String × PBSJob)
deriving DecidableEq, Repr

/-- Queue.__init__ (core.py, line 129): `{j.id: j for j in jobs}`.  (The
source also drops empty dicts; a `PBSJob` record here always carries its `id`
entry, so that filter is vacuous.) -/
def Queue.ofJobs (l : List PBSJob) : Queue :=
  ⟨l.foldl (fun d j => dictInsert d j.id j) []⟩

/-- Queue.update (core.py, lines 142-145): Python `dict.update`. -/
def Queue.update (q other : Queue) : Queue :=
  ⟨other.jobs.foldl (fun d kv => dictInsert d kv.1 kv.2) q.jobs⟩

/-- Queue.pop (core.py, lines 131-134): `dict.pop(job.id)`.  (In the sweep the
popped key is always present; on an absent key the model removes nothing
where Python would raise KeyError.) -/
def Queue.pop (q : Queue) (id : String) : Queue :=
  ⟨q.jobs.filter (fun kv => kv.1 ≠ id)⟩

/-- Queue.__contains__ (core.py, lines 151-154): dict-key membership. -/
def Queue.containsId (q : Queue) (id : String) : Bool :=
  q.jobs.any (fun kv => kv.1 == id)

end Core

/- ------------------------------------------------------------------
   schedtools/jobs.py — the rerun sweep
   ------------------------------------------------------------------ -/

/-- Outcome of one `manager.rerun_job(job)` call as observed by the sweep's
`except JobSubmissionError` handler (jobs.py, lines 168-179):
either the call returns, or it raises `QueueFullError`, or it raises some
other `JobSubmissionError` (including `MissingJobScriptError`). -/
inductive RerunOutcome
  | success
  | queueFull
  | submissionError
deriving DecidableEq, Repr

/-- The rerun loop of `rerun_jobs` (jobs.py, lines 168-179), with the per-job
result of `manager.rerun_job` abstracted as `outcome`.  On success the job is
popped from the tracked queue (the subsequent `delete_job` call does not
touch the tracked queue); on `QueueFullError` the loop breaks; on any other
`JobSubmissionError` the job is left tracked and the loop continues. -/
def rerunLoop (outcome : Core.PBSJob → RerunOutcome) :
    List Core.PBSJob → Core.Queue → Core.Queue
  | [], tracked => tracked
  | j :: rest, tracked =>
    match outcome j with
    | .success => rerunLoop outcome rest (tracked.pop j.id)
    | .queueFull => tracked
    | .submissionError => rerunLoop outcome rest tracked

/-- The candidates for which the loop actually calls `manager.rerun_job`,
in order (jobs.py, lines 168-179). -/
def rerunAttempted (outcome : Core.PBSJob → RerunOutcome) :
    List Core.PBSJob → List Core.PBSJob
  | [] => []
  | j :: rest =>
    j :: (match outcome j with
          | .queueFull => []
          | _ => rerunAttempted outcome rest)

/-- Durable state touched by the persistence step of `rerun_jobs`:
the remote mirror `$HOME/.rerun-tracked.json` and the local fallback cache
`RERUN_TRACKED_CACHE` (absent = `none`). -/
structure SweepStore where
  mirror : List Core.PBSJob
  cache : Option (List Core.PBSJob)
deriving DecidableEq, Repr

/-- The persistence step of `rerun_jobs` (jobs.py, lines 181-199): serialize
the tracked list and echo it into the remote mirror.  If that write returns
non-zero, the same payload is written to the local fallback cache (the remote
mirror keeps whatever it held); on a zero return the mirror now holds the
payload and the cache file is removed if it exists. -/
def persistTracked (tracked : List Core.PBSJob) (writeFailed : Bool)
    (st : SweepStore) : SweepStore :=
  if writeFailed then { mirror := st.mirror, cache := some tracked }
  else { mirror := tracked, cache := none }

/-- The tracked view assembled at the start of the next sweep (jobs.py,
lines 153-155 and 78-84): `get_tracked_from_cluster` reads the mirror, then
`tracked.update(get_tracked_cache())` merges in the cache contents (an absent
cache file yields an empty queue). -/
def nextTrackedView (st : SweepStore) : Core.Queue :=
  (Core.Queue.ofJobs st.mirror).update (Core.Queue.ofJobs (st.cache.getD []))

/- ------------------------------------------------------------------
   schedtools/managers.py — PBS.rerun_job
   ------------------------------------------------------------------ -/

/-- Result of one `handler.execute(cmd)` call (shell_handler.py SSHResult, as
consumed by managers.py). -/
structure ExecResult where
  returncode : Int
  stdout : String
  stderr : String
deriving DecidableEq, Repr

/-- What `PBS.rerun_job` does on return: either returns normally or raises
one of the submission errors (exceptions.py). -/
inductive RerunResult
  | ok
  | queueFullErr
  | missingJobScriptErr
  | jobSubmissionErr
deriving DecidableEq, Repr

/-- The qsub fallback inside PBS.rerun_job (managers.py, lines 266-279).
Returns the outcome, the final `qrerun_allowed` flag and the full list of
commands issued. -/
def PBS.qsubFallback (exec : String → ExecResult) (qra : Bool) (job : Job)
    (trace : List String) : RerunResult × Bool × List String :=
  let cmd := "qsub " ++ pyStr job.jobscript_path
  let result := exec cmd
  let trace := trace ++ [cmd]
  if result.returncode ≠ 0 then
    if strContains (pyStrip result.stderr) "script file:: No such" then
      (.missingJobScriptErr, qra, trace)
    else if result.returncode = 38 then
      (.queueFullErr, qra, trace)
    else
      (.jobSubmissionErr, qra, trace)
  else
    (.ok, qra, trace)

/-- PBS.rerun_job (managers.py, lines 247-279).  `qra` is the adapter's
`qrerun_allowed` flag.  Note the qrerun command is built from `job.id`
(the tracked id, rendered through an f-string, so Python `None` prints as
"None"), not from `job.scheduler_id`. -/
def PBS.rerunJob (exec : String → ExecResult) (qra : Bool) (job : Job) :
    RerunResult × Bool × List String :=
  if qra then
    let cmd := "qrerun " ++ pyStr job.id
    let result := exec cmd
    if result.returncode ≠ 0 then
      if result.returncode = 159 then
        -- account not authorized for qrerun: flip the flag, fall through
        PBS.qsubFallback exec false job [cmd]
      else if result.returncode = 38 then
        (.queueFullErr, qra, [cmd])
      else
        PBS.qsubFallback exec qra job [cmd]
    else
      (.ok, qra, [cmd])
  else
    PBS.qsubFallback exec qra job []

/- ------------------------------------------------------------------
   schedtools/sql.py and schedtools/tracking.py — upsert_jobs
   ------------------------------------------------------------------ -/

/-- On-conflict policy (sql.py / tracking.py `OnConflict`). -/
inductive OnConflict
  | update
  | skip
  | throw
deriving DecidableEq, Repr

namespace Sql

/-- A row of the `jobs` table as created by sql.py `ensure_table`
(id PK, state, cluster, queue, project, jobscript_path, experiment_path,
comment, modified_time). -/
structure Row where
  id : Option String
  state : String
  cluster : String
  queue : Option String
  project : Option String
  jobscript_path : Option String
  experiment_path : Option String
  comment : Option String
  modified_time : String
deriving DecidableEq, Repr

/-- Cluster enum `.value` strings (clusters.py). -/
def clusterValue : Cluster → String
  | .cx3 => "cx3"
  | .cx3_phase_2 => "cx3_phase_2"
  | .unknown => "unknown"

/-- JobSpec.to_sqlite (schemas.py, lines 250-261).  `modified_time` is the
isoformat string of the job's own modified time, modelled by an abstract
rendering of the integer timestamp. -/
def toSqlite (j : JobSpec) : Row :=
  { id := j.id
    state := j.state.value
    cluster := clusterValue j.cluster
    queue := j.queue
    project := j.project
    jobscript_path := j.jobscript_path
    experiment_path := j.experiment_path
    comment := j.comment
    modified_time := toString j.modified_time }

/-- SQLite PK conflict test: a stored row conflicts with an incoming id iff
both are non-NULL and equal (SQLite treats NULL primary keys as pairwise
distinct). -/
def rowConflicts (r : Row) (id : Option String) : Bool :=
  match r.id, id with
  | some a, some b => a == b
  | _, _ => false

/-- One `INSERT ... ON CONFLICT` of sql.py `upsert_jobs` (lines 110-154) for a
single values-row.  `update` replaces the listed columns of the conflicting
row (comment is not in the update list), `skip` does nothing, `throw` fails
the batch with an integrity error. -/
def insertRow (table : List Row) (r : Row) (oc : OnConflict) :
    Except String (List Row) :=
  if table.any (fun q => rowConflicts q r.id) then
    match oc with
    | .update =>
        .ok (table.map (fun q =>
          if rowConflicts q r.id then
            { q with
              state := r.state
              cluster := r.cluster
              queue := r.queue
              project := r.project
              jobscript_path := r.jobscript_path
              experiment_path := r.experiment_path
              modified_time := r.modified_time }
          else q))
    | .skip => .ok table
    | .throw => .error "UNIQUE constraint failed: jobs.id"
  else
    .ok (table ++ [r])

/-- upsert_jobs (sql.py, lines 110-154): one transactional executemany over
the job list. -/
def upsert_jobs (table : List Row) (jobs : List JobSpec) (oc : OnConflict) :
    Except String (List Row) :=
  jobs.foldlM (fun t j => insertRow t (toSqlite j) oc) table

end Sql

namespace Tracking

/-- A row of the `jobs` table as created by tracking.py `ensure_table`
(no `cluster` / `comment` columns). -/
structure Row where
  id : Option String
  state : String
  queue : Option String
  project : Option String
  jobscript_path : Option String
  experiment_path : Option String
  modified_time : String
deriving DecidableEq, Repr

/-- The values-row tracking.py `upsert_jobs` inserts for a JobSpec: the
to_sqlite columns it names, with `modified_time` taken from SQLite
CURRENT_TIMESTAMP (passed here as `now`). -/
def toRow (j : JobSpec) (now : String) : Row :=
  { id := j.id
    state := j.state.value
    queue := j.queue
    project := j.project
    jobscript_path := j.jobscript_path
    experiment_path := j.experiment_path
    modified_time := now }

/-- SQLite PK conflict test, as in `Sql.rowConflicts`. -/
def rowConflicts (r : Row) (id : Option String) : Bool :=
  match r.id, id with
  | some a, some b => a == b
  | _, _ => false

/-- One `INSERT ... ON CONFLICT` of tracking.py `upsert_jobs` (lines 99-142)
for a single values-row. -/
def insertRow (table : List Row) (r : Row) (oc : OnConflict) :
    Except String (List Row) :=
  if table.any (fun q => rowConflicts q r.id) then
    match oc with
    | .update =>
        .ok (table.map (fun q =>
          if rowConflicts q r.id then
            { q with
              state := r.state
              queue := r.queue
              project := r.project
              jobscript_path := r.jobscript_path
              experiment_path := r.experiment_path
              modified_time := r.modified_time }
          else q))
    | .skip => .ok table
    | .throw => .error "UNIQUE constraint failed: jobs.id"
  else
    .ok (table ++ [r])

/-- upsert_jobs (tracking.py, lines 99-142).  `now` is the CURRENT_TIMESTAMP
value SQLite supplies for the call. -/
def upsert_jobs (table : List Row) (jobs : List JobSpec) (oc : OnConflict)
    (now : String) : Except String (List Row) :=
  jobs.foldlM (fun t j => insertRow t (toRow j now) oc) table

end Tracking

/- ------------------------------------------------------------------
   schedtools/shell_handler.py — ShellHandler.execute
   ------------------------------------------------------------------ -/

namespace Shell

/-- SSHResult namedtuple (shell_handler.py, line 18). -/
structure SSHResult where
  stdin : String
  stdout : String
  stderr : String
  returncode : Int
deriving DecidableEq, Repr

/-- The errors `execute` can raise: ValueError on an empty command, and
ValueError from `int(...)` on a malformed sentinel line (a channel-level
fault). -/
inductive ExecErr
  | emptyCommand
  | badStatusLine
deriving DecidableEq, Repr

/-- The sentinel marker (shell_handler.py, line 121). -/
def finishMarker : String := "end of stdOUT buffer. finished with exit status"

/-- The sentinel echo command (shell_handler.py, line 122):
`"echo {} $?".format(finish)`. -/
def echoCmd : String := "echo " ++ finishMarker ++ " $?"

/-- Python `cmd.strip("\n")`: drop newline characters from both ends. -/
def stripNewlines (s : String) : String :=
  ⟨((s.data.dropWhile (fun c => c = '\n')).reverse.dropWhile
      (fun c => c = '\n')).reverse⟩

/-- Python `line.replace("\b", "").replace("\r", "")` (shell_handler.py,
line 146). -/
def cleanLine (s : String) : String :=
  ⟨s.data.filter (fun c => c ≠ '\x08' ∧ c ≠ '\r')⟩

/-- Python `int(line.rsplit(maxsplit=1)[1])` (shell_handler.py, line 135):
take the last whitespace-delimited token (IndexError if the line has fewer
than two tokens, modelled as `none`) and parse it as an integer. -/
def parseExitStatus (line : String) : Option Int :=
  let toks := pySplitWhitespace line
  if 2 ≤ toks.length then (toks.getLast?).bind pyParseInt else none

/-- The capture loop of `execute` (shell_handler.py, lines 126-146), with the
channel's line stream passed in explicitly and `unformat=False` (the
default).  Returns (shout, sherr, exit_status). -/
def executeLoop (cmd : String) :
    List String → List String → Except ExecErr (List String × List String × Int)
  | [], shout => .ok (shout, [], 0)
  | line :: rest, shout =>
    if pyStartsWith line cmd || pyStartsWith line echoCmd then
      executeLoop cmd rest []
    else if pyStartsWith line finishMarker then
      match parseExitStatus line with
      | none => .error .badStatusLine
      | some status =>
          if status ≠ 0 then .ok ([], shout, status)
          else .ok (shout, [], status)
    else
      executeLoop cmd rest (shout ++ [cleanLine line])

/-- The stdout lines accumulated by the capture loop at the moment it stops
(the lines "captured as stdout"); same branch structure as `executeLoop`. -/
def capturedStdout (cmd : String) : List String → List String → List String
  | [], shout => shout
  | line :: rest, shout =>
    if pyStartsWith line cmd || pyStartsWith line echoCmd then
      capturedStdout cmd rest []
    else if pyStartsWith line finishMarker then shout
    else capturedStdout cmd rest (shout ++ [cleanLine line])

/-- The prompt-trimming step (shell_handler.py, lines 148-156): drop the last
line if it contains the sentinel echo, then the first line if it contains the
command. -/
def trimCapture (cmd : String) (xs : List String) : List String :=
  let xs :=
    match xs.getLast? with
    | some last => if strContains last echoCmd then xs.dropLast else xs
    | none => xs
  match xs with
  | [] => []
  | first :: rest => if strContains first cmd then rest else first :: rest

/-- ShellHandler.execute (shell_handler.py, lines 105-158), over an explicit
list of lines subsequently read from the interactive channel. -/
def execute (cmd : String) (stream : List String) : Except ExecErr SSHResult :=
  if cmd.length = 0 then .error .emptyCommand
  else
    let cmd := stripNewlines cmd
    match executeLoop cmd stream [] with
    | .error e => .error e
    | .ok (shout, sherr, status) =>
        let shout := trimCapture cmd shout
        let sherr := trimCapture cmd sherr
        .ok { stdin := cmd
              stdout := String.intercalate "\n" shout
              stderr := String.intercalate "\n" sherr
              returncode := status }

/-- Well-formedness of a channel stream: every line that would be taken as
the sentinel carries a parsable integer exit status. -/
def wfStream (stream : List String) : Prop :=
  ∀ line ∈ stream,
    pyStartsWith line finishMarker = true → (parseExitStatus line).isSome

instance (stream : List String) : Decidable (wfStream stream) := by
  unfold wfStream; infer_instance

end Shell

/- ------------------------------------------------------------------
   schedtools/interfaces/rerun.py — threshold safety
   ------------------------------------------------------------------ -/

/-- EXPECTED_WALLTIME (rerun.py, line 16), in hours. -/
def EXPECTED_WALLTIME : ℚ := 72

/-- SAFE_BUFFER (rerun.py, line 17). -/
def SAFE_BUFFER : ℚ := 3 / 2

/-- The startup threshold correction (rerun.py, lines 60-67). -/
def correctedThreshold (threshold interval : ℚ) : ℚ :=
  if (1 - threshold / 100) * EXPECTED_WALLTIME < SAFE_BUFFER * interval then
    (1 - SAFE_BUFFER * interval / EXPECTED_WALLTIME) * 100
  else threshold

/- ------------------------------------------------------------------
   Sample values used by witnesses and counterexamples
   ------------------------------------------------------------------ -/

/-- A sample resource request (72h walltime, in seconds). -/
def sampleRequest : ResourceRequest :=
  { mem_bytes := 8000000000
    ncpus := 4
    ngpus := 1
    node_count := 1
    place := "free"
    priority := none
    select_statement := "1:ncpus=4"
    walltime := 259200 }

/-- A sample JobSpec. -/
def sampleSpec : JobSpec :=
  { id := some "a"
    name := "job-01.pbs"
    experiment_path := none
    cluster := .cx3
    state := .queued
    modified_time := 0
    comment := none
    queue := some "v1_gpu72"
    project := none
    jobscript_path := none }

/-- A sample qstat body with an empty Variable_List. -/
def sampleBody : QstatBody :=
  { job_name := "job-01.pbs"
    job_owner := "user@cx3-2-29"
    job_state := some "Q"
    queue := "v1_gpu72"
    server := "pbs1.rcs.ic.ac.uk"
    project := "p"
    checkpoint := "u"
    error_path_raw := "host:/e"
    output_path_raw := "host:/o"
    resource_list := sampleRequest
    resources_used := none
    stime := none
    ctime := 0
    qtime := 0
    mtime := 0
    priority := 0
    comment := none
    run_count := 0
    submit_arguments_raw := none
    variable_list := [] }

/-- Build a Job with the given tracked id and scheduler id over the sample
fields. -/
def mkJob (id : Option String) (sid : String) : Job :=
  { toJobSpec := { sampleSpec with id := id }
    scheduler_id := sid
    owner := "user@cx3-2-29"
    resource_request := sampleRequest
    resource_usage := none
    server := "pbs1.rcs.ic.ac.uk"
    start_time := none
    creation_time := 0
    queue_time := 0
    checkpoint := "u"
    submit_arguments := none
    error_path := "/e"
    output_path := "/o"
    priority := 0
    run_count := 0
    job_details := sampleBody }

/- ------------------------------------------------------------------
   Claim C1
   ------------------------------------------------------------------ -/

/-- Claim C1: for any two job records A and B (JobSpec or Job), `match_jobs`
(and hence `JobSpec.__eq__`) returns true iff A.id equals B.id, or both sides
expose a `scheduler_id` and those are equal; comparing one side's id against
the other side's scheduler_id never makes two records equal. -/
theorem C1_identity_matching (a b : JobArg) (ia ib : Option String)
    (ha : a.idAttr = some ia) (hb : b.idAttr = some ib) :
    match_jobs a b = true ↔
      (ia = ib ∨ ∃ s, a.schedAttr = some s ∧ b.schedAttr = some s) := by
  cases a with
  | ofStr s => simp [JobArg.idAttr] at ha
  | ofSpec j =>
    cases b with
    | ofStr t => simp [JobArg.idAttr] at hb
    | ofSpec k =>
      simp only [JobArg.idAttr, Option.some.injEq] at ha hb
      subst ha; subst hb
      simp [match_jobs, JobArg.schedAttr]
    | ofJob k =>
      simp only [JobArg.idAttr, Option.some.injEq] at ha hb
      subst ha; subst hb
      simp [match_jobs, JobArg.schedAttr]
  | ofJob j =>
    cases b with
    | ofStr t => simp [JobArg.idAttr] at hb
    | ofSpec k =>
      simp only [JobArg.idAttr, Option.some.injEq] at ha hb
      subst ha; subst hb
      simp [match_jobs, JobArg.schedAttr]
    | ofJob k =>
      simp only [JobArg.idAttr, Option.some.injEq] at ha hb
      subst ha; subst hb
      simp [match_jobs, JobArg.schedAttr]
      exact or_congr_right eq_comm

/-- Witness for C1 at concrete records: two Jobs with different ids but equal
scheduler_ids match through the scheduler_id disjunct. -/
theorem C1_identity_matching_witness :
    match_jobs (.ofJob (mkJob (some "1") "x")) (.ofJob (mkJob (some "2") "x")) = true ↔
      ((some "1" : Option String) = some "2" ∨
        ∃ s, (JobArg.ofJob (mkJob (some "1") "x")).schedAttr = some s ∧
             (JobArg.ofJob (mkJob (some "2") "x")).schedAttr = some s) :=
  C1_identity_matching _ _ _ _ rfl rfl

/- ------------------------------------------------------------------
   Claim C9
   ------------------------------------------------------------------ -/

/-- Claim C9: with `EXPECTED_WALLTIME = 72` and `SAFE_BUFFER = 1.5`, the
startup check replaces the threshold by `(1 - safe_buffer*interval/expected)*100`
exactly when `(1 - threshold/100)*expected < safe_buffer*interval`, and for
every interval > 0 and threshold in [0, 100] the corrected threshold satisfies
`(1 - threshold/100)*expected ≥ safe_buffer*interval`. -/
theorem C9_threshold_safety (threshold interval : ℚ) :
    ((1 - threshold / 100) * EXPECTED_WALLTIME < SAFE_BUFFER * interval →
      correctedThreshold threshold interval =
        (1 - SAFE_BUFFER * interval / EXPECTED_WALLTIME) * 100) ∧
    (¬ (1 - threshold / 100) * EXPECTED_WALLTIME < SAFE_BUFFER * interval →
      correctedThreshold threshold interval = threshold) ∧
    (0 < interval → 0 ≤ threshold → threshold ≤ 100 →
      SAFE_BUFFER * interval ≤
        (1 - correctedThreshold threshold interval / 100) * EXPECTED_WALLTIME) := by
  refine ⟨?_, ?_, ?_⟩
  · intro h
    simp [correctedThreshold, h]
  · intro h
    simp [correctedThreshold, h]
  · intro _ _ _
    unfold correctedThreshold
    split_ifs with h
    · have : (1 - (1 - SAFE_BUFFER * interval / EXPECTED_WALLTIME) * 100 / 100) *
          EXPECTED_WALLTIME = SAFE_BUFFER * interval := by
        unfold EXPECTED_WALLTIME SAFE_BUFFER
        ring
      rw [this]
    · exact le_of_not_lt h

/-- Witness for C9 at threshold 90, interval 1: the condition does not hold,
the threshold is kept, and the safety inequality holds. -/
theorem C9_threshold_safety_witness :
    correctedThreshold 90 1 = 90 ∧
    SAFE_BUFFER * 1 ≤ (1 - correctedThreshold 90 1 / 100) * EXPECTED_WALLTIME :=
  ⟨(C9_threshold_safety 90 1).2.1 (by norm_num [EXPECTED_WALLTIME, SAFE_BUFFER]),
   (C9_threshold_safety 90 1).2.2 (by norm_num) (by norm_num) (by norm_num)⟩

/- ------------------------------------------------------------------
   Claim C7
   ------------------------------------------------------------------ -/

/-- Percent completion as claim C7 words it (spec §3): 100 if completed, else
the walltime ratio when usage is present, else 0. -/
def specPercentCompletion (j : Job) : ℚ :=
  if j.state = .completed then 100
  else
    match j.resource_usage with
    | some u => 100 * u.walltime / j.resource_request.walltime
    | none => 0

/-- A failed Job with 36h of used walltime against a 72h request. -/
def jobC7 : Job :=
  { mkJob (some "u1") "7013474.pbs" with
    toJobSpec := { sampleSpec with id := some "u1", state := .failed }
    resource_usage := some
      { cpu_percent := 0
        cpu_time := 0
        mem_bytes := 0
        vmem_bytes := 0
        ncpus := 4
        ngpus := 1
        walltime := 129600 } }

/-- Counterexample to claim C7 as stated: for a failed job with recorded
usage, the code returns 0 while the claimed formula gives the 50% walltime
ratio. -/
theorem C7_percent_completion_counterexample :
    Job.percent_completion jobC7 = 0 ∧
    specPercentCompletion jobC7 = 50 ∧
    Job.percent_completion jobC7 ≠ specPercentCompletion jobC7 := by
  have h1 : Job.percent_completion jobC7 = 0 := by
    simp [Job.percent_completion, jobC7, mkJob, sampleSpec]
  have h2 : specPercentCompletion jobC7 = 50 := by
    have hs : jobC7.state = .failed := rfl
    have hu : jobC7.resource_usage.isSome := rfl
    simp only [specPercentCompletion, hs, jobC7, mkJob, sampleSpec, sampleRequest]
    norm_num
    decide
  exact ⟨h1, h2, by rw [h1, h2]; norm_num⟩

/-- Percent completion as amended: the failed state also pins the value to 0;
otherwise the claim's formula stands (the source's extra guard on a zero used
walltime does not change the value, since the ratio is then 0). -/
def amendedPercentCompletion (j : Job) : ℚ :=
  if j.state = .completed then 100
  else if j.state = .failed then 0
  else
    match j.resource_usage with
    | some u => 100 * u.walltime / j.resource_request.walltime
    | none => 0

/-- Claim C7 (amended): for every Job j, `j.percent_completion` equals 100 if
completed, 0 if failed, else the walltime ratio when usage is present, else 0.
Also, for every JobSpec, `percent_completion` is 100 if completed else 0. -/
theorem C7_percent_completion_amended (j : Job) (s : JobSpec) :
    Job.percent_completion j = amendedPercentCompletion j ∧
    JobSpec.percent_completion s = (if s.state = .completed then 100 else 0) := by
  constructor
  · unfold Job.percent_completion amendedPercentCompletion
    split_ifs with h1 h2
    · rfl
    · rfl
    · cases hu : j.resource_usage with
      | none => rfl
      | some u =>
        by_cases hw : u.walltime = 0
        · simp [hw]
        · simp [hw]
  · rfl

/- ------------------------------------------------------------------
   Claim C6
   ------------------------------------------------------------------ -/

/-- Helper: a single-job sql.py upsert with `skip` is an insert-if-absent. -/
lemma sql_upsert_single_skip (t : List Sql.Row) (j : JobSpec) :
    Sql.upsert_jobs t [j] .skip =
      .ok (if t.any (fun q => Sql.rowConflicts q j.id) then t
           else t ++ [Sql.toSqlite j]) := by
  have hid : (Sql.toSqlite j).id = j.id := rfl
  unfold Sql.upsert_jobs
  simp only [List.foldlM_cons, List.foldlM_nil]
  unfold Sql.insertRow
  rw [hid]
  by_cases hc : t.any (fun q => Sql.rowConflicts q j.id) = true
  · simp [hc]
  · simp [hc]

/-- Helper: a single-job tracking.py upsert with `skip` is an
insert-if-absent. -/
lemma tracking_upsert_single_skip (t : List Tracking.Row) (j : JobSpec)
    (now : String) :
    Tracking.upsert_jobs t [j] .skip now =
      .ok (if t.any (fun q => Tracking.rowConflicts q j.id) then t
           else t ++ [Tracking.toRow j now]) := by
  have hid : (Tracking.toRow j now).id = j.id := rfl
  unfold Tracking.upsert_jobs
  simp only [List.foldlM_cons, List.foldlM_nil]
  unfold Tracking.insertRow
  rw [hid]
  by_cases hc : t.any (fun q => Tracking.rowConflicts q j.id) = true
  · simp [hc]
  · simp [hc]

/-- Claim C6: upserting the same JobSpec twice with `on_conflict=skip` leaves
the jobs table exactly as a single upsert does, and when a row with the
JobSpec's id already exists the upsert changes nothing.  Shown for both the
sql.py and the tracking.py variants of `upsert_jobs` (the `isSome` hypothesis
reflects the `id: str` declaration of the JobSpec dataclass). -/
theorem C6_upsert_skip_idempotent (table : List Sql.Row)
    (ttable : List Tracking.Row) (j : JobSpec) (now1 now2 : String)
    (hid : j.id.isSome = true) :
    (∃ t1, Sql.upsert_jobs table [j] .skip = .ok t1 ∧
           Sql.upsert_jobs t1 [j] .skip = .ok t1 ∧
           (table.any (fun q => Sql.rowConflicts q j.id) = true → t1 = table)) ∧
    (∃ t2, Tracking.upsert_jobs ttable [j] .skip now1 = .ok t2 ∧
           Tracking.upsert_jobs t2 [j] .skip now2 = .ok t2 ∧
           (ttable.any (fun q => Tracking.rowConflicts q j.id) = true →
             t2 = ttable)) := by
  obtain ⟨s, hs⟩ := Option.isSome_iff_exists.mp hid
  constructor
  · by_cases hc : table.any (fun q => Sql.rowConflicts q j.id) = true
    · refine ⟨table, ?_, ?_, fun _ => rfl⟩
      · rw [sql_upsert_single_skip, if_pos hc]
      · rw [sql_upsert_single_skip, if_pos hc]
    · have hself : Sql.rowConflicts (Sql.toSqlite j) j.id = true := by
        simp [Sql.rowConflicts, Sql.toSqlite, hs]
      have hc2 : (table ++ [Sql.toSqlite j]).any
          (fun q => Sql.rowConflicts q j.id) = true := by
        simp [List.any_append, hself]
      refine ⟨table ++ [Sql.toSqlite j], ?_, ?_, fun h => absurd h hc⟩
      · rw [sql_upsert_single_skip, if_neg]
        simp_all
      · rw [sql_upsert_single_skip, if_pos hc2]
  · by_cases hc : ttable.any (fun q => Tracking.rowConflicts q j.id) = true
    · refine ⟨ttable, ?_, ?_, fun _ => rfl⟩
      · rw [tracking_upsert_single_skip, if_pos hc]
      · rw [tracking_upsert_single_skip, if_pos hc]
    · have hself : Tracking.rowConflicts (Tracking.toRow j now1) j.id = true := by
        simp [Tracking.rowConflicts, Tracking.toRow, hs]
      have hc2 : (ttable ++ [Tracking.toRow j now1]).any
          (fun q => Tracking.rowConflicts q j.id) = true := by
        simp [List.any_append, hself]
      refine ⟨ttable ++ [Tracking.toRow j now1], ?_, ?_, fun h => absurd h hc⟩
      · rw [tracking_upsert_single_skip, if_neg]
        simp_all
      · rw [tracking_upsert_single_skip, if_pos hc2]

/-- Witness for C6 at the empty tables and the sample JobSpec. -/
theorem C6_upsert_skip_idempotent_witness :
    (∃ t1, Sql.upsert_jobs [] [sampleSpec] .skip = .ok t1 ∧
           Sql.upsert_jobs t1 [sampleSpec] .skip = .ok t1 ∧
           (List.any [] (fun q => Sql.rowConflicts q sampleSpec.id) = true →
             t1 = [])) ∧
    (∃ t2, Tracking.upsert_jobs [] [sampleSpec] .skip "now1" = .ok t2 ∧
           Tracking.upsert_jobs t2 [sampleSpec] .skip "now2" = .ok t2 ∧
           (List.any [] (fun q => Tracking.rowConflicts q sampleSpec.id) = true →
             t2 = [])) :=
  C6_upsert_skip_idempotent [] [] sampleSpec "now1" "now2" rfl

/- ------------------------------------------------------------------
   Claim C4
   ------------------------------------------------------------------ -/

/-- A Job whose tracked id and scheduler-assigned id differ, as produced by a
normal tracked submission. -/
def jobC4 : Job := mkJob (some "8f0c-tracked-id") "7013474.pbs"

/-- A handler for which every command exits 1 with empty stderr. -/
def execC4 : String → ExecResult :=
  fun _ => { returncode := 1, stdout := "", stderr := "" }

/-- Claim C4, evaluated at the failing input: with `qrerun_allowed = true`,
`PBS.rerun_job` first issues `qrerun <job.id>` — the tracked id — and not
`qrerun <job.scheduler_id>` as the claim states; it then falls back to
`qsub <jobscript_path>` and raises `JobSubmissionError` on the non-38,
non-159 exit. -/
theorem C4_rerun_uses_tracked_id :
    (PBS.rerunJob execC4 true jobC4).2.2 =
      ["qrerun 8f0c-tracked-id", "qsub None"] ∧
    "qrerun 8f0c-tracked-id" ≠ "qrerun " ++ jobC4.scheduler_id ∧
    (PBS.rerunJob execC4 true jobC4).1 = .jobSubmissionErr := by
  refine ⟨?_, ?_, ?_⟩ <;> decide

/- ------------------------------------------------------------------
   Claim C3
   ------------------------------------------------------------------ -/

/-- Helper: key membership after a Python-dict insertion. -/
lemma any_key_dictInsert {V : Type} (d : List (String × V)) (k x : String)
    (v : V) :
    ((Core.dictInsert d k v).any (fun kv => kv.1 == x)) =
      (d.any (fun kv => kv.1 == x) || (k == x)) := by
  induction d with
  | nil => simp [Core.dictInsert]
  | cons hd tl ih =>
    obtain ⟨k', v'⟩ := hd
    by_cases h : k' = k
    · subst h
      simp only [Core.dictInsert, if_pos rfl, List.any_cons]
      cases hkx : (k' == x) <;> simp [hkx]
    · simp only [Core.dictInsert, if_neg h, List.any_cons, ih]
      cases hkx : (k' == x) <;> simp [hkx, Bool.or_assoc]

/-- Helper: key membership after folding Python-dict insertions. -/
lemma any_key_foldl_dictInsert (l : List (String × Core.PBSJob))
    (d : List (String × Core.PBSJob)) (x : String) :
    ((l.foldl (fun d kv => Core.dictInsert d kv.1 kv.2) d).any
        (fun kv => kv.1 == x)) =
      (d.any (fun kv => kv.1 == x) || l.any (fun kv => kv.1 == x)) := by
  induction l generalizing d with
  | nil => simp
  | cons hd tl ih =>
    simp only [List.foldl_cons, List.any_cons, ih, any_key_dictInsert,
      Bool.or_assoc]

/-- Helper: key membership in a merged core queue. -/
lemma containsId_update (q r : Core.Queue) (x : String) :
    (q.update r).containsId x = (q.containsId x || r.containsId x) := by
  simp [Core.Queue.update, Core.Queue.containsId, any_key_foldl_dictInsert]

/-- Claim C3: if the sweep's mirror write fails, the serialized tracked
payload is written to the local fallback cache (the mirror untouched), and
the next sweep's tracked view contains exactly the ids of the mirror merged
with the ids of the cache; whenever the mirror write succeeds, the fallback
cache is removed. -/
theorem C3_fallback_cache_replay (tracked : List Core.PBSJob)
    (st : SweepStore) :
    (persistTracked tracked true st).cache = some tracked ∧
    (persistTracked tracked true st).mirror = st.mirror ∧
    (persistTracked tracked false st).cache = none ∧
    ∀ id, (nextTrackedView st).containsId id =
      ((Core.Queue.ofJobs st.mirror).containsId id ||
       (Core.Queue.ofJobs (st.cache.getD [])).containsId id) := by
  refine ⟨rfl, rfl, rfl, fun id => ?_⟩
  simp [nextTrackedView, containsId_update]

/- ------------------------------------------------------------------
   Claim C2
   ------------------------------------------------------------------ -/

/-- Helper: popping one id from a core queue keeps every entry with a
different key. -/
lemma mem_pop_of_ne (q : Core.Queue) (p : String × Core.PBSJob) (id : String)
    (hmem : p ∈ q.jobs) (hne : p.1 ≠ id) : p ∈ (q.pop id).jobs := by
  simp only [Core.Queue.pop, List.mem_filter]
  exact ⟨hmem, by simpa using hne⟩

/-- Helper: once the loop hits a QueueFull outcome it attempts nothing
later. -/
lemma rerunAttempted_break (outcome : Core.PBSJob → RerunOutcome)
    (pre post : List Core.PBSJob) (k : Core.PBSJob)
    (hpre : ∀ j ∈ pre, outcome j ≠ .queueFull)
    (hk : outcome k = .queueFull) :
    rerunAttempted outcome (pre ++ k :: post) = pre ++ [k] := by
  induction pre with
  | nil =>
    simp [rerunAttempted, hk]
  | cons j rest ih =>
    have hj : outcome j ≠ .queueFull := hpre j (List.mem_cons_self j rest)
    have ihr := ih (fun x hx => hpre x (List.mem_cons_of_mem j hx))
    cases hout : outcome j with
    | success => simp [rerunAttempted, hout, ihr]
    | queueFull => exact absurd hout hj
    | submissionError => simp [rerunAttempted, hout, ihr]

/-- Helper: the loop keeps every tracked entry whose id was not successfully
rerun before the QueueFull break. -/
lemma rerunLoop_preserves (outcome : Core.PBSJob → RerunOutcome)
    (pre post : List Core.PBSJob) (k : Core.PBSJob)
    (hk : outcome k = .queueFull) :
    ∀ (tracked : Core.Queue) (p : String × Core.PBSJob),
      p ∈ tracked.jobs →
      (∀ j ∈ pre, outcome j = .success → j.id ≠ p.1) →
      p ∈ (rerunLoop outcome (pre ++ k :: post) tracked).jobs := by
  induction pre with
  | nil =>
    intro tracked p hmem _
    simpa [rerunLoop, hk] using hmem
  | cons j rest ih =>
    intro tracked p hmem hid
    cases hout : outcome j with
    | success =>
      have hne : j.id ≠ p.1 := hid j (List.mem_cons_self j rest) hout
      have hmem' : p ∈ (tracked.pop j.id).jobs :=
        mem_pop_of_ne tracked p j.id hmem (fun h => hne h.symm)
      have := ih (tracked.pop j.id) p hmem'
        (fun x hx hs => hid x (List.mem_cons_of_mem j hx) hs)
      simpa [rerunLoop, hout] using this
    | queueFull =>
      simpa [rerunLoop, hout] using hmem
    | submissionError =>
      have := ih tracked p hmem
        (fun x hx hs => hid x (List.mem_cons_of_mem j hx) hs)
      simpa [rerunLoop, hout] using this

/-- Claim C2: within one sweep, if `rerun_job` raises QueueFull for candidate
k, no rerun is attempted for any later candidate, and every entry of the
tracked queue whose id was not successfully rerun earlier in the loop —
including k and every later candidate — is still present in the tracked queue
the sweep then persists. -/
theorem C2_queue_full_containment (outcome : Core.PBSJob → RerunOutcome)
    (pre post : List Core.PBSJob) (k : Core.PBSJob) (tracked : Core.Queue)
    (hpre : ∀ j ∈ pre, outcome j ≠ .queueFull)
    (hk : outcome k = .queueFull) :
    rerunAttempted outcome (pre ++ k :: post) = pre ++ [k] ∧
    ∀ p ∈ tracked.jobs,
      (∀ j ∈ pre, outcome j = .success → j.id ≠ p.1) →
      p ∈ (rerunLoop outcome (pre ++ k :: post) tracked).jobs :=
  ⟨rerunAttempted_break outcome pre post k hpre hk,
   fun p hmem hid => rerunLoop_preserves outcome pre post k hk tracked p hmem hid⟩

/-- Concrete sweep candidates for the C2 witness. -/
def coreJobA : Core.PBSJob := ⟨"a", []⟩

/-- Concrete QueueFull candidate for the C2 witness. -/
def coreJobB : Core.PBSJob := ⟨"b", []⟩

/-- Concrete later candidate for the C2 witness. -/
def coreJobC : Core.PBSJob := ⟨"c", []⟩

/-- Concrete per-candidate outcomes for the C2 witness: a succeeds, b hits a
full queue, anything else errors. -/
def outcomeC2 : Core.PBSJob → RerunOutcome :=
  fun j =>
    if j.id = "a" then .success
    else if j.id = "b" then .queueFull
    else .submissionError

/-- Witness for C2 at three concrete candidates and a concrete tracked
queue. -/
theorem C2_queue_full_containment_witness :
    rerunAttempted outcomeC2 ([coreJobA] ++ coreJobB :: [coreJobC]) =
      [coreJobA] ++ [coreJobB] ∧
    ∀ p ∈ (Core.Queue.ofJobs [coreJobA, coreJobB, coreJobC]).jobs,
      (∀ j ∈ [coreJobA], outcomeC2 j = .success → j.id ≠ p.1) →
      p ∈ (rerunLoop outcomeC2 ([coreJobA] ++ coreJobB :: [coreJobC])
            (Core.Queue.ofJobs [coreJobA, coreJobB, coreJobC])).jobs :=
  C2_queue_full_containment outcomeC2 [coreJobA] [coreJobC] coreJobB
    (Core.Queue.ofJobs [coreJobA, coreJobB, coreJobC])
    (by decide) (by decide)

/- ------------------------------------------------------------------
   Claim C5
   ------------------------------------------------------------------ -/

/-- Job with id "1" and scheduler_id "x". -/
def jobA1x : Job := mkJob (some "1") "x"

/-- Job with id "2" and scheduler_id "y". -/
def jobA2y : Job := mkJob (some "2") "y"

/-- Job with id "1" and scheduler_id "y": matches `jobA1x` by id and
`jobA2y` by scheduler_id, but `jobA1x` and `jobA2y` do not match. -/
def jobA1y : Job := mkJob (some "1") "y"

/-- Counterexample to claim C5 as stated: adding `jobA1x`, `jobA2y`, `jobA1y`
to an empty Queue leaves two entries that satisfy the identity match
(`jobA1y` replaces `jobA1x` by id-match, but then shares a scheduler_id with
`jobA2y`). -/
theorem C5_queue_uniqueness_counterexample :
    noTwoMatch (applyAdds [jobA1x, jobA2y, jobA1y]).jobs = false ∧
    (applyAdds [jobA1x, jobA2y, jobA1y]).jobs = [jobA1y, jobA2y] ∧
    match_jobs (.ofJob jobA1y) (.ofJob jobA2y) = true := by
  refine ⟨?_, ?_, ?_⟩ <;> decide

/-- Helper: an element of `addJob l j` is an element of `l` or is `j`. -/
lemma addJob_mem (l : List Job) (j x : Job) (hx : x ∈ addJob l j) :
    x ∈ l ∨ x = j := by
  induction l with
  | nil =>
    simp [addJob] at hx
    exact Or.inr hx
  | cons k rest ih =>
    by_cases h : match_jobs (.ofJob k) (.ofJob j) = true
    · simp only [addJob, if_pos h] at hx
      rcases List.mem_cons.mp hx with h1 | h1
      · exact Or.inr h1
      · exact Or.inl (List.mem_cons_of_mem k h1)
    · simp only [addJob, if_neg h] at hx
      rcases List.mem_cons.mp hx with h1 | h1
      · exact Or.inl (h1 ▸ List.mem_cons_self k rest)
      · rcases ih h1 with h2 | h2
        · exact Or.inl (List.mem_cons_of_mem k h2)
        · exact Or.inr h2

/-- Helper: Prop form of `noTwoMatch`. -/
lemma noTwoMatch_iff (l : List Job) :
    noTwoMatch l = true ↔
      l.Pairwise (fun a b => match_jobs (.ofJob a) (.ofJob b) = false) := by
  induction l with
  | nil => simp [noTwoMatch]
  | cons j rest ih =>
    simp [noTwoMatch, ih, List.pairwise_cons, List.all_eq_true]

/-- Helper: one `addJob` preserves pairwise non-matching, assuming
`match_jobs` is transitive on a predicate covering the queue and the new
job. -/
lemma addJob_noTwoMatch (S : Job → Prop)
    (htrans : ∀ a b c, S a → S b → S c →
      match_jobs (.ofJob a) (.ofJob b) = true →
      match_jobs (.ofJob b) (.ofJob c) = true →
      match_jobs (.ofJob a) (.ofJob c) = true)
    (l : List Job) (j : Job) (hl : ∀ x ∈ l, S x) (hj : S j)
    (hp : noTwoMatch l = true) : noTwoMatch (addJob l j) = true := by
  rw [noTwoMatch_iff] at hp ⊢
  induction l with
  | nil => simp [addJob]
  | cons k rest ih =>
    have hSk : S k := hl k (List.mem_cons_self k rest)
    have hSrest : ∀ x ∈ rest, S x := fun x hx => hl x (List.mem_cons_of_mem k hx)
    rcases List.pairwise_cons.mp hp with ⟨hknomatch, hprest⟩
    by_cases h : match_jobs (.ofJob k) (.ofJob j) = true
    · simp only [addJob, if_pos h]
      refine List.pairwise_cons.mpr ⟨?_, hprest⟩
      intro x hx
      by_contra hjx
      have hjx' : match_jobs (.ofJob j) (.ofJob x) = true := by
        cases hval : match_jobs (.ofJob j) (.ofJob x) with
        | true => rfl
        | false => exact absurd hval hjx
      have : match_jobs (.ofJob k) (.ofJob x) = true :=
        htrans k j x hSk hj (hSrest x hx) h hjx'
      rw [hknomatch x hx] at this
      exact Bool.false_ne_true this
    · simp only [addJob, if_neg h]
      refine List.pairwise_cons.mpr ⟨?_, ih hSrest hprest⟩
      intro x hx
      rcases addJob_mem rest j x hx with h1 | h1
      · exact hknomatch x h1
      · subst h1
        cases hval : match_jobs (.ofJob k) (.ofJob x) with
        | true => exact absurd hval h
        | false => rfl

/-- Helper: elements of `foldl addJob` come from the accumulator or the
added list. -/
lemma foldl_addJob_mem (l : List Job) (q : List Job) (x : Job)
    (hx : x ∈ l.foldl addJob q) : x ∈ q ∨ x ∈ l := by
  induction l generalizing q with
  | nil => exact Or.inl hx
  | cons j rest ih =>
    rcases ih (addJob q j) (by simpa using hx) with h1 | h1
    · rcases addJob_mem q j x h1 with h2 | h2
      · exact Or.inl h2
      · exact Or.inr (h2 ▸ List.mem_cons_self j rest)
    · exact Or.inr (List.mem_cons_of_mem j h1)

/-- Helper: `foldl addJob` preserves pairwise non-matching under the
transitivity assumption. -/
lemma foldl_addJob_noTwoMatch (S : Job → Prop)
    (htrans : ∀ a b c, S a → S b → S c →
      match_jobs (.ofJob a) (.ofJob b) = true →
      match_jobs (.ofJob b) (.ofJob c) = true →
      match_jobs (.ofJob a) (.ofJob c) = true)
    (l : List Job) : ∀ (q : List Job), (∀ x ∈ q, S x) → (∀ x ∈ l, S x) →
      noTwoMatch q = true → noTwoMatch (l.foldl addJob q) = true := by
  induction l with
  | nil => intro q hq _ hp; exact hp
  | cons j rest ih =>
    intro q hq hl hp
    have hSj : S j := hl j (List.mem_cons_self j rest)
    have hSrest : ∀ x ∈ rest, S x := fun x hx => hl x (List.mem_cons_of_mem j hx)
    have hq' : ∀ x ∈ addJob q j, S x := by
      intro x hx
      rcases addJob_mem q j x hx with h1 | h1
      · exact hq x h1
      · exact h1 ▸ hSj
    have hp' : noTwoMatch (addJob q j) = true :=
      addJob_noTwoMatch S htrans q j hq hSj hp
    simpa using ih (addJob q j) hq' hSrest hp'

/-- Helper: the jobs of a queue built by folding `Queue.add`. -/
lemma applyAdds_jobs (l : List Job) : ∀ q : List Job,
    (l.foldl Queue.add ⟨q⟩).jobs = l.foldl addJob q := by
  induction l with
  | nil => intro q; rfl
  | cons j rest ih => intro q; simpa [Queue.add] using ih (addJob q j)

/-- Claim C5 (amended): after any finite sequence of `Queue.add` operations
on an initially empty Queue, no two entries satisfy the identity match,
provided `match_jobs` is transitive on the jobs added (the original claim
fails without this proviso because the match relation is not transitive:
`add` replaces only the first matching entry). -/
theorem C5_queue_uniqueness_amended (l : List Job)
    (htrans : matchTransOn l = true) :
    noTwoMatch (applyAdds l).jobs = true := by
  have htrans' : ∀ a b c, a ∈ l → b ∈ l → c ∈ l →
      match_jobs (.ofJob a) (.ofJob b) = true →
      match_jobs (.ofJob b) (.ofJob c) = true →
      match_jobs (.ofJob a) (.ofJob c) = true := by
    intro a b c ha hb hc hab hbc
    have h1 := List.all_eq_true.mp htrans a ha
    have h2 := List.all_eq_true.mp h1 b hb
    have h3 := List.all_eq_true.mp h2 c hc
    simpa [hab, hbc] using h3
  have := foldl_addJob_noTwoMatch (fun x => x ∈ l)
    (fun a b c ha hb hc hab hbc => htrans' a b c ha hb hc hab hbc)
    l [] (by simp) (fun x hx => hx) (by simp [noTwoMatch])
  simpa [applyAdds, applyAdds_jobs] using this

/-- Witness for C5 (amended) on two non-matching jobs, where transitivity
holds trivially. -/
theorem C5_queue_uniqueness_amended_witness :
    matchTransOn [jobA1x, jobA2y] = true ∧
    noTwoMatch (applyAdds [jobA1x, jobA2y]).jobs = true :=
  ⟨by decide, C5_queue_uniqueness_amended [jobA1x, jobA2y] (by decide)⟩

/- ------------------------------------------------------------------
   Claim C10
   ------------------------------------------------------------------ -/

/-- Claim C10: two Jobs parsed from qstat bodies whose Variable_List has no
JOB_ID entry both get `id = None`; `match_jobs` judges them equal even with
different scheduler_ids, so `Queue.add` of the second replaces the first and
Queue membership reports either as contained. -/
theorem C10_tracked_identity_collapse (b1 b2 : QstatBody) (s1 s2 : String)
    (h1 : b1.variable_list.lookup job_id_key = none)
    (h2 : b2.variable_list.lookup job_id_key = none) :
    (Job.parse s1 b1).id = none ∧
    (Job.parse s2 b2).id = none ∧
    match_jobs (.ofJob (Job.parse s1 b1)) (.ofJob (Job.parse s2 b2)) = true ∧
    ((⟨[]⟩ : Queue).add (Job.parse s1 b1)).add (Job.parse s2 b2) =
      ⟨[Job.parse s2 b2]⟩ ∧
    (((⟨[]⟩ : Queue).add (Job.parse s1 b1)).add (Job.parse s2 b2)).containsArg
      (.ofJob (Job.parse s1 b1)) = true ∧
    (((⟨[]⟩ : Queue).add (Job.parse s1 b1)).add (Job.parse s2 b2)).containsArg
      (.ofJob (Job.parse s2 b2)) = true := by
  have e1 : (Job.parse s1 b1).id = none := by
    simp [Job.parse, h1]
  have e2 : (Job.parse s2 b2).id = none := by
    simp [Job.parse, h2]
  have m12 : match_jobs (.ofJob (Job.parse s1 b1)) (.ofJob (Job.parse s2 b2)) =
      true := by
    simp [match_jobs, e1, e2]
  have m21 : match_jobs (.ofJob (Job.parse s2 b2)) (.ofJob (Job.parse s1 b1)) =
      true := by
    simp [match_jobs, e1, e2]
  have m22 : match_jobs (.ofJob (Job.parse s2 b2)) (.ofJob (Job.parse s2 b2)) =
      true := by
    simp [match_jobs]
  have hadd : ((⟨[]⟩ : Queue).add (Job.parse s1 b1)).add (Job.parse s2 b2) =
      ⟨[Job.parse s2 b2]⟩ := by
    simp [Queue.add, addJob, m12]
  refine ⟨e1, e2, m12, hadd, ?_, ?_⟩
  · rw [hadd]; simp [Queue.containsArg, m21]
  · rw [hadd]; simp [Queue.containsArg, m22]

/-- Witness for C10 at two sample bodies with empty Variable_Lists and
distinct scheduler ids. -/
theorem C10_tracked_identity_collapse_witness :
    (Job.parse "7013474.pbs" sampleBody).id = none ∧
    (Job.parse "7013475.pbs" sampleBody).id = none ∧
    match_jobs (.ofJob (Job.parse "7013474.pbs" sampleBody))
      (.ofJob (Job.parse "7013475.pbs" sampleBody)) = true ∧
    ((⟨[]⟩ : Queue).add (Job.parse "7013474.pbs" sampleBody)).add
        (Job.parse "7013475.pbs" sampleBody) =
      ⟨[Job.parse "7013475.pbs" sampleBody]⟩ ∧
    (((⟨[]⟩ : Queue).add (Job.parse "7013474.pbs" sampleBody)).add
        (Job.parse "7013475.pbs" sampleBody)).containsArg
      (.ofJob (Job.parse "7013474.pbs" sampleBody)) = true ∧
    (((⟨[]⟩ : Queue).add (Job.parse "7013474.pbs" sampleBody)).add
        (Job.parse "7013475.pbs" sampleBody)).containsArg
      (.ofJob (Job.parse "7013475.pbs" sampleBody)) = true :=
  C10_tracked_identity_collapse sampleBody sampleBody
    "7013474.pbs" "7013475.pbs" rfl rfl

/- ------------------------------------------------------------------
   Claim C8
   ------------------------------------------------------------------ -/

/-- Helper: on a well-formed stream the capture loop never raises, and on a
non-zero exit status the stdout capture is empty while the stderr slot holds
the lines that had been captured as stdout. -/
lemma executeLoop_ok (cmd : String) (stream : List String) :
    ∀ shout, Shell.wfStream stream →
    ∃ out, Shell.executeLoop cmd stream shout = .ok out ∧
      (out.2.2 ≠ 0 →
        out.1 = [] ∧ out.2.1 = Shell.capturedStdout cmd stream shout) := by
  induction stream with
  | nil =>
    intro shout _
    exact ⟨(shout, [], 0), rfl, fun h => absurd rfl h⟩
  | cons line rest ih =>
    intro shout hwf
    have hwf' : Shell.wfStream rest :=
      fun l hl hs => hwf l (List.mem_cons_of_mem line hl) hs
    by_cases h1 :
        (pyStartsWith line cmd || pyStartsWith line Shell.echoCmd) = true
    · obtain ⟨out, hok, hprop⟩ := ih [] hwf'
      refine ⟨out, ?_, ?_⟩
      · simpa [Shell.executeLoop, h1] using hok
      · intro hne
        obtain ⟨ha, hb⟩ := hprop hne
        exact ⟨ha, by simpa [Shell.capturedStdout, h1] using hb⟩
    · by_cases h2 : pyStartsWith line Shell.finishMarker = true
      · have hsome := hwf line (List.mem_cons_self line rest) h2
        obtain ⟨status, hstat⟩ := Option.isSome_iff_exists.mp hsome
        by_cases h3 : status = 0
        · refine ⟨(shout, [], status), ?_, fun hne => absurd h3 hne⟩
          simp [Shell.executeLoop, h1, h2, hstat, h3]
        · refine ⟨([], shout, status), ?_, fun _ => ⟨rfl, ?_⟩⟩
          · simp [Shell.executeLoop, h1, h2, hstat, h3]
          · simp [Shell.capturedStdout, h1, h2]
      · obtain ⟨out, hok, hprop⟩ := ih (shout ++ [Shell.cleanLine line]) hwf'
        refine ⟨out, ?_, ?_⟩
        · simpa [Shell.executeLoop, h1, h2] using hok
        · intro hne
          obtain ⟨ha, hb⟩ := hprop hne
          exact ⟨ha, by simpa [Shell.capturedStdout, h1, h2] using hb⟩

/-- Claim C8: `ShellHandler.execute` raises an invalid-argument error exactly
for the empty command; for a non-empty command over a well-formed channel
stream it returns a result record without raising, and when the sentinel
reports a non-zero exit the stdout field is the empty capture while the
stderr field carries the (prompt-trimmed) lines captured as stdout. -/
theorem C8_execute_contract :
    (∀ stream, Shell.execute "" stream = .error .emptyCommand) ∧
    (∀ (cmd : String) (stream : List String), cmd ≠ "" → Shell.wfStream stream →
      ∃ r, Shell.execute cmd stream = .ok r ∧
        (r.returncode ≠ 0 →
          r.stdout = "" ∧
          r.stderr = String.intercalate "\n"
            (Shell.trimCapture (Shell.stripNewlines cmd)
              (Shell.capturedStdout (Shell.stripNewlines cmd) stream [])))) := by
  constructor
  · intro stream; rfl
  · intro cmd stream hne hwf
    have hlen : ¬ cmd.length = 0 := by
      intro h
      apply hne
      cases cmd with
      | mk data =>
        cases data with
        | nil => rfl
        | cons c cs => simp [String.length] at h
    obtain ⟨⟨shout, sherr, status⟩, hok, hprop⟩ :=
      executeLoop_ok (Shell.stripNewlines cmd) stream [] hwf
    have hrun : Shell.execute cmd stream =
        .ok { stdin := Shell.stripNewlines cmd
              stdout := String.intercalate "\n"
                (Shell.trimCapture (Shell.stripNewlines cmd) shout)
              stderr := String.intercalate "\n"
                (Shell.trimCapture (Shell.stripNewlines cmd) sherr)
              returncode := status } := by
      unfold Shell.execute
      rw [if_neg hlen]
      simp only [hok]
    refine ⟨_, hrun, fun hrc => ?_⟩
    obtain ⟨hsh, hse⟩ := hprop hrc
    constructor
    · simp only at hsh
      rw [hsh]
      rfl
    · simp only at hse
      rw [hse]

/-- Concrete channel stream for the C8 witness: the echoed command, one
output line, and a sentinel reporting exit status 1. -/
def streamC8 : List String :=
  ["ls\n", "out1\n", Shell.finishMarker ++ " 1\n"]

/-- Witness for C8 at the command "ls" over `streamC8`. -/
theorem C8_execute_contract_witness :
    ∃ r, Shell.execute "ls" streamC8 = .ok r ∧
      (r.returncode ≠ 0 →
        r.stdout = "" ∧
        r.stderr = String.intercalate "\n"
          (Shell.trimCapture (Shell.stripNewlines "ls")
            (Shell.capturedStdout (Shell.stripNewlines "ls") streamC8 []))) :=
  C8_execute_contract.2 "ls" streamC8 (by decide) (by decide)
